import Mathlib

/-!
Verification development for the attendance-tracking-system backend.

This file gives a shallow embedding of the recognition-matching and
attendance/session coordination layer of the repository:

* the attendance ENTRY/EXIT state machine
  (`backend/src/services/attendanceService.ts`: `determineAttendanceType`,
  `processAttendance`; and the variant service with duplicate suppression:
  `processAttendanceCheck`),
* the session/token lifecycle
  (`backend/src/services/authService.ts`: `validateToken`, `refreshToken`,
  `logout`; `backend/src/models/Session.ts`: `findActiveSession`, `isValid`),
* nearest-neighbour face matching
  (`backend/src/services/faceRecognitionService.ts`: `findMatchingUser`,
  `calculateEuclideanDistance`).

Modelling conventions:

* Timestamps are integers (milliseconds since the epoch), mirroring
  JavaScript `Date.getTime()`.
* User ids and session ids are natural numbers; the JavaScript falsy check
  on an id string (`!decoded.sessionId`) is modelled as a comparison with
  `0`.
* The durable stores (MongoDB collections) are lists of records; the Redis
  caches are carried explicitly in the state.  Operations that can fail at
  the store (an `await ....save()` that throws) take a boolean oracle for
  the success of that write, so each execution of the original code
  corresponds to one choice of oracles.
* Face descriptors are lists of real numbers, and the Euclidean distance is
  the real square root of the sum of squared differences, exactly as
  computed by `calculateEuclideanDistance`.
-/

namespace AttendanceSystem

/-! ## Attendance state machine -/

/-- The two attendance event types ("ENTRY" / "EXIT" in the source). -/
inductive AttType where
  | ENTRY
  | EXIT
deriving DecidableEq, Repr

/-- A persisted attendance event (the fields of the `Attendance` model that
the state machine consults: `type` and `timestamp`).  Timestamps are in
milliseconds. -/
structure AttendanceRecord where
  type : AttType
  timestamp : ℤ
deriving DecidableEq, Repr

/-- The cached recent-attendance marker: the value stored under
`recent_attendance:<userId>` is `{ lastType, timestamp }`. -/
structure RecentAttendance where
  lastType : AttType
  timestamp : ℤ
deriving DecidableEq, Repr

/-- Per-person attendance state: the durable `Attendance` collection in
chronological order (most recent last) and the cached recent-attendance
marker (`none` when the key is absent or expired). -/
structure AttendanceState where
  records : List AttendanceRecord
  marker : Option RecentAttendance
deriving DecidableEq, Repr

/-- `attendanceService.ts` `determineAttendanceType` (lines 159-199).
`recentAttendance` is the value read from the cache; `lastAttendance` is
`Attendance.findOne({userId}).sort({timestamp: -1})`, the most recent
durable event; `todayStart`/`tomorrowStart` delimit today's local date
window.  Cache first: if a marker is present its `lastType` is inverted
with no date check.  Otherwise the most recent durable event is inverted
only if it falls inside today's window; else the result is ENTRY. -/
def determineAttendanceType (recentAttendance : Option RecentAttendance)
    (lastAttendance : Option AttendanceRecord)
    (todayStart tomorrowStart : ℤ) : AttType :=
  match recentAttendance with
  | some m => if m.lastType = AttType.ENTRY then AttType.EXIT else AttType.ENTRY
  | none =>
    match lastAttendance with
    | none => AttType.ENTRY
    | some last =>
      if todayStart ≤ last.timestamp ∧ last.timestamp < tomorrowStart then
        (if last.type = AttType.ENTRY then AttType.EXIT else AttType.ENTRY)
      else AttType.ENTRY

/-- Result of an attendance check, abstracting `AttendanceCheckResult`:
`success`, the advertised wait (in seconds) of a "Please wait N seconds"
rejection, and the recorded type on success. -/
structure AttendanceCheckResult where
  success : Bool
  waitSeconds : Option ℤ
  recordedType : Option AttType
deriving DecidableEq, Repr

/-- `attendanceService.ts` `processAttendance` (lines 45-157), from the
point where a face match has been accepted.  It determines the type,
persists the event (`attendance.save()`, success given by `saveOk`), then
writes the recent-attendance marker (`setRecentAttendance`, success given
by `cacheOk`).  A throw from either write is caught by the surrounding
`try` and reported as a failed check; a throw from the marker write
happens after the event was already persisted. -/
def processAttendance (s : AttendanceState) (now todayStart tomorrowStart : ℤ)
    (saveOk cacheOk : Bool) : AttendanceState × AttendanceCheckResult :=
  let ty := determineAttendanceType s.marker s.records.getLast? todayStart tomorrowStart
  if saveOk then
    if cacheOk then
      (⟨s.records ++ [⟨ty, now⟩], some ⟨ty, now⟩⟩, ⟨true, none, some ty⟩)
    else
      (⟨s.records ++ [⟨ty, now⟩], s.marker⟩, ⟨false, none, none⟩)
  else
    (s, ⟨false, none, none⟩)

/-- `MIN_TIME_BETWEEN_ENTRIES = 5 * 60 * 1000` (milliseconds), from the
attendance service variant with duplicate suppression. -/
def MIN_TIME_BETWEEN_ENTRIES : ℤ := 5 * 60 * 1000

/-- TTL of the recent-attendance marker written by
`cacheService.setRecentAttendance` (3600 seconds), in milliseconds. -/
def RECENT_ATTENDANCE_TTL_MS : ℤ := 3600 * 1000

/-- The remaining wait advertised by the "Please wait N seconds" rejection
of the duplicate-suppression guard:
`Math.ceil((MIN_TIME_BETWEEN_ENTRIES - timeSinceLastEntry) / 1000)`. -/
def suppressionWait (timeSinceLastEntry : ℤ) : ℤ :=
  ⌈((MIN_TIME_BETWEEN_ENTRIES - timeSinceLastEntry : ℚ) / 1000)⌉

/-- The duplicate-suppression variant `processAttendanceCheck`
(`attendanceService.ts` of the second service file, lines 108-162), from
the point where a face match has been accepted.  If a recent-attendance
marker exists and less than `MIN_TIME_BETWEEN_ENTRIES` has elapsed since
its timestamp, the request is rejected with the remaining wait
`suppressionWait` seconds and no state change.  Otherwise the event is
persisted and then the marker is cached, with the same failure semantics
as `processAttendance`. -/
def processAttendanceCheck (s : AttendanceState) (now todayStart tomorrowStart : ℤ)
    (saveOk cacheOk : Bool) : AttendanceState × AttendanceCheckResult :=
  match s.marker with
  | some m =>
    let timeSinceLastEntry := now - m.timestamp
    if timeSinceLastEntry < MIN_TIME_BETWEEN_ENTRIES then
      (s, ⟨false, some (suppressionWait timeSinceLastEntry), none⟩)
    else
      processAttendance s now todayStart tomorrowStart saveOk cacheOk
  | none => processAttendance s now todayStart tomorrowStart saveOk cacheOk

/-- The recent-attendance marker, when present, records the type of the
most recent persisted event.  This is the state the success path of
`processAttendance` establishes (event write then marker write). -/
def MarkerConsistent (s : AttendanceState) : Prop :=
  ∀ m, s.marker = some m →
    ∃ e, s.records.getLast? = some e ∧ m.lastType = e.type

/-! ## Session manager (`authService.ts`, `models/Session.ts`) -/

/-- The slice of the `User` model consulted by the session layer. -/
structure UserRec where
  isActive : Bool
deriving DecidableEq, Repr

/-- A durable `Session` row (`models/Session.ts`): the fields consulted by
`findActiveSession`, `isValid`, `logout` and `refreshToken`. -/
structure SessionRow where
  userId : ℕ
  sessionId : ℕ
  isActive : Bool
  expiresAt : ℤ
deriving DecidableEq, Repr

/-- The cached session projection stored under `session:<sessionId>`
(`{userId, email, role, name}`); only `userId` is consulted by the
verification targets. -/
structure CachedSession where
  userId : ℕ
deriving DecidableEq, Repr

/-- The JWT payload `{userId, email, role, sessionId}` plus the embedded
expiry claim `exp`; ids are naturals, with `0` playing the role of the
falsy empty string. -/
structure TokenPayload where
  userId : ℕ
  sessionId : ℕ
  exp : ℤ
deriving DecidableEq, Repr

/-- A signed token: its payload and whether its signature verifies against
the configured secret. -/
structure Token where
  payload : TokenPayload
  sigOk : Bool
deriving DecidableEq, Repr

/-- The session layer's state: the durable `Session` collection, the Redis
session-projection cache (an association list keyed by sessionId) and the
`User` collection. -/
structure AuthState where
  sessions : List SessionRow
  cache : List (ℕ × CachedSession)
  users : ℕ → Option UserRec

/-- `cacheService.getUserSession`: look up the projection cached under
`session:<sessionId>`. -/
def getUserSession : List (ℕ × CachedSession) → ℕ → Option CachedSession
  | [], _ => none
  | (k, v) :: rest, sessionId =>
    if k = sessionId then some v else getUserSession rest sessionId

/-- `cacheService.removeUserSession`: delete the key
`session:<sessionId>`. -/
def removeUserSession : List (ℕ × CachedSession) → ℕ → List (ℕ × CachedSession)
  | [], _ => []
  | (k, v) :: rest, sessionId =>
    if k = sessionId then removeUserSession rest sessionId
    else (k, v) :: removeUserSession rest sessionId

/-- `cacheService.setUserSession`: store (overwrite) the projection under
`session:<sessionId>`. -/
def setUserSession (cache : List (ℕ × CachedSession)) (sessionId : ℕ)
    (data : CachedSession) : List (ℕ × CachedSession) :=
  (sessionId, data) :: removeUserSession cache sessionId

/-- `jwt.verify(token, secret)`: succeeds, returning the decoded payload,
iff the signature verifies and the current time is strictly before the
embedded `exp` claim; otherwise it throws (modelled as `none`). -/
def verifyJwt (t : Token) (now : ℤ) : Option TokenPayload :=
  if t.sigOk = true ∧ now < t.payload.exp then some t.payload else none

/-- `Session.findActiveSession(sessionId)` (`models/Session.ts` lines
63-69): `findOne({sessionId, isActive: true, expiresAt: {$gt: now}})`. -/
def findActiveSession : List SessionRow → ℕ → ℤ → Option SessionRow
  | [], _, _ => none
  | r :: rest, sessionId, now =>
    if r.sessionId = sessionId ∧ r.isActive = true ∧ now < r.expiresAt then some r
    else findActiveSession rest sessionId now

/-- `session.isValid()` (`models/Session.ts` lines 79-81):
`this.isActive && this.expiresAt > new Date()`. -/
def SessionRow.isValid (r : SessionRow) (now : ℤ) : Bool :=
  r.isActive && decide (now < r.expiresAt)

/-- The cache-hit branch of `validateToken` (lines 615-624): a cached
projection exists for the token's sessionId and the token's user is
present and active.  When this is false the code falls through to the
durable-store check. -/
def cacheHitValid (st : AuthState) (decoded : TokenPayload) : Bool :=
  match getUserSession st.cache decoded.sessionId with
  | some _ =>
    match st.users decoded.userId with
    | some u => u.isActive
    | none => false
  | none => false

/-- `authService.ts` `validateToken` (lines 604-650).  Verify the JWT
(signature and embedded expiry) first; reject on falsy ids; accept on a
cache hit with an active user; otherwise fall back to the durable store
(`findActiveSession` plus the redundant `isValid` re-check and the user
active check), re-caching the projection on success.  Returns the validity
verdict and the possibly updated state. -/
def validateToken (st : AuthState) (t : Token) (now : ℤ) : Bool × AuthState :=
  match verifyJwt t now with
  | none => (false, st)
  | some decoded =>
    if decoded.sessionId = 0 ∨ decoded.userId = 0 then (false, st)
    else if cacheHitValid st decoded then (true, st)
    else
      match findActiveSession st.sessions decoded.sessionId now with
      | none => (false, st)
      | some session =>
        if session.isValid now = false then (false, st)
        else
          match st.users decoded.userId with
          | none => (false, st)
          | some u =>
            if u.isActive = false then (false, st)
            else
              (true, ⟨st.sessions,
                setUserSession st.cache decoded.sessionId ⟨decoded.userId⟩,
                st.users⟩)

/-- `Session.updateOne({sessionId: oldSessionId}, {sessionId:
newSessionId, expiresAt: newExpiresAt})` from `refreshToken`: rewrite the
first row whose sessionId matches. -/
def updateOneSession : List SessionRow → ℕ → ℕ → ℤ → List SessionRow
  | [], _, _, _ => []
  | r :: rest, oldSessionId, newSessionId, newExpiresAt =>
    if r.sessionId = oldSessionId then
      ⟨r.userId, newSessionId, r.isActive, newExpiresAt⟩ :: rest
    else r :: updateOneSession rest oldSessionId newSessionId newExpiresAt

/-- `authService.ts` `refreshToken` (lines 652-705).  Validate the old
token; on success move the durable row to a freshly generated sessionId
with a new expiry, mint a new token for the new sessionId, drop the old
cache projection and cache the new one.  `newSessionId` stands for the
generated `crypto.randomBytes` id and `expiryMs` for the configured JWT
lifetime. -/
def refreshToken (st : AuthState) (oldToken : Token) (now : ℤ)
    (newSessionId : ℕ) (expiryMs : ℤ) : Option Token × AuthState :=
  match validateToken st oldToken now with
  | (false, st1) => (none, st1)
  | (true, st1) =>
    (some ⟨⟨oldToken.payload.userId, newSessionId, now + expiryMs⟩, true⟩,
      ⟨updateOneSession st1.sessions oldToken.payload.sessionId newSessionId
          (now + expiryMs),
        setUserSession (removeUserSession st1.cache oldToken.payload.sessionId)
          newSessionId ⟨oldToken.payload.userId⟩,
        st1.users⟩)

/-- `Session.updateOne({sessionId, isActive: true}, {isActive: false})`
from `logout`: deactivate the first matching active row. -/
def deactivateOne : List SessionRow → ℕ → List SessionRow
  | [], _ => []
  | r :: rest, sessionId =>
    if r.sessionId = sessionId ∧ r.isActive = true then
      ⟨r.userId, r.sessionId, false, r.expiresAt⟩ :: rest
    else r :: deactivateOne rest sessionId

/-- `authService.ts` `logout` (lines 583-602): deactivate the durable
session row and evict the cached projection. -/
def logout (st : AuthState) (sessionId : ℕ) : AuthState :=
  ⟨deactivateOne st.sessions sessionId,
    removeUserSession st.cache sessionId,
    st.users⟩

/-- The durable store's uniqueness of sessionIds (the `Session` schema
declares `sessionId` with `unique: true`). -/
def SessionIdsUnique (rows : List SessionRow) : Prop :=
  rows.Pairwise (fun a b => a.sessionId ≠ b.sessionId)

/-- Sample user table for witnesses: user 1 exists and is active. -/
def usersOneActive : ℕ → Option UserRec :=
  fun userId => if userId = 1 then some ⟨true⟩ else none

/-- Sample user table for witnesses: user 1 exists and is deactivated. -/
def usersOneInactive : ℕ → Option UserRec :=
  fun userId => if userId = 1 then some ⟨false⟩ else none

/-! ## Face matching (`faceRecognitionService.ts`) -/

/-- `FACE_DISTANCE_THRESHOLD = 0.4`, the maximum distance for a match. -/
noncomputable def FACE_DISTANCE_THRESHOLD : ℝ := 0.4

/-- A `FaceMatch` result: `{userId, distance, confidence}` (the `user`
document itself is recoverable from the id). -/
structure FaceMatch where
  userId : ℕ
  distance : ℝ
  confidence : ℝ

/-- `calculateEuclideanDistance` (lines 355-367): throws (modelled as
`none`) on a length mismatch, otherwise the square root of the sum of
squared coordinate differences. -/
noncomputable def calculateEuclideanDistance (desc1 desc2 : List ℝ) : Option ℝ :=
  if desc1.length = desc2.length then
    some (Real.sqrt (((desc1.zip desc2).map
      (fun p => (p.1 - p.2) * (p.1 - p.2))).sum))
  else none

/-- The running `minDistance` comparison of the matching loop;
`minDistance` starts at JavaScript `Infinity`, modelled as `none`, against
which every distance compares smaller. -/
def ltMinDistance (distance : ℝ) : Option ℝ → Prop
  | none => True
  | some minDistance => distance < minDistance

open Classical in
/-- The `for (const [userId, descriptor] of Object.entries(...))` loop of
`findMatchingUser` (lines 176-194), carrying the `bestMatch` and
`minDistance` accumulators.  A candidate below the threshold and below the
running minimum triggers a `User.findById` lookup; only an existing,
active user becomes the new best match (an inactive user updates
nothing).  A thrown distance error propagates (outer `none`). -/
noncomputable def findMatchLoop (faceDescriptor : List ℝ) (db : ℕ → Option UserRec) :
    List (ℕ × List ℝ) → Option FaceMatch → Option ℝ → Option (Option FaceMatch)
  | [], bestMatch, _ => some bestMatch
  | (userId, descriptor) :: rest, bestMatch, minDistance =>
    match calculateEuclideanDistance faceDescriptor descriptor with
    | none => none
    | some distance =>
      if distance < FACE_DISTANCE_THRESHOLD ∧ ltMinDistance distance minDistance then
        match db userId with
        | some user =>
          if user.isActive = true then
            findMatchLoop faceDescriptor db rest
              (some ⟨userId, distance, 1 - distance⟩) (some distance)
          else
            findMatchLoop faceDescriptor db rest bestMatch minDistance
        | none => findMatchLoop faceDescriptor db rest bestMatch minDistance
      else findMatchLoop faceDescriptor db rest bestMatch minDistance

/-- `findMatchingUser` (lines 161-201): scan the cached gallery with
`bestMatch = null` and `minDistance = Infinity`; the result is the final
best match (`none` for "no match"), or an outer `none` for a thrown
error.  `db` is `User.findById`. -/
noncomputable def findMatchingUser (faceDescriptor : List ℝ)
    (cachedDescriptors : List (ℕ × List ℝ)) (db : ℕ → Option UserRec) :
    Option (Option FaceMatch) :=
  findMatchLoop faceDescriptor db cachedDescriptors none none

/-! ## Theorems -/

/-- An element returned by `getLast?` is a member of the list. -/
theorem getLast?_is_mem {α : Type} {l : List α} {a : α}
    (h : l.getLast? = some a) : a ∈ l :=
  List.mem_of_mem_getLast? (by simp [h])

/-- C2 (counterexample): strict same-day alternation fails on the code.
Starting from an empty history, run `processAttendance` four times within
one calendar day; the third marker cache write fails after the event was
persisted (the caught-throw path of the source), leaving the marker stale.
The fourth call then consults the stale marker and records a second
consecutive ENTRY.  After the third call the most recent event of the day
is an ENTRY, yet `determineAttendanceType` returns ENTRY, not EXIT, and
the final history contains two ENTRYs in a row; the stale marker is still
well within its 3600-second TTL at every step. -/
theorem determineAttendanceType_stale_marker_breaks_alternation :
    (((processAttendance
        (processAttendance
          (processAttendance ⟨[], none⟩ 32400000 0 86400000 true true).1
          33000000 0 86400000 true true).1
        33600000 0 86400000 true false).1).records.getLast?
      = some ⟨AttType.ENTRY, 33600000⟩)
    ∧ ((0 : ℤ) ≤ 33600000 ∧ (33600000 : ℤ) < 86400000)
    ∧ (determineAttendanceType
        ((processAttendance
          (processAttendance
            (processAttendance ⟨[], none⟩ 32400000 0 86400000 true true).1
            33000000 0 86400000 true true).1
          33600000 0 86400000 true false).1).marker
        ((processAttendance
          (processAttendance
            (processAttendance ⟨[], none⟩ 32400000 0 86400000 true true).1
            33000000 0 86400000 true true).1
          33600000 0 86400000 true false).1).records.getLast?
        0 86400000 = AttType.ENTRY)
    ∧ AttType.ENTRY ≠ AttType.EXIT
    ∧ ((processAttendance
        (processAttendance
          (processAttendance
            (processAttendance ⟨[], none⟩ 32400000 0 86400000 true true).1
            33000000 0 86400000 true true).1
          33600000 0 86400000 true false).1
        34200000 0 86400000 true true).1.records
      = [⟨AttType.ENTRY, 32400000⟩, ⟨AttType.EXIT, 33000000⟩,
         ⟨AttType.ENTRY, 33600000⟩, ⟨AttType.ENTRY, 34200000⟩])
    ∧ ((34200000 : ℤ) - 33000000 < RECENT_ATTENDANCE_TTL_MS) := by
  decide

/-- C2 (amended): provided the cached recent-attendance marker, when
present, matches the type of the most recent persisted event — the state
every fully successful `processAttendance` call re-establishes — the next
determined type is the opposite of the most recent event of the day, an
accepted check-in appends exactly one event of that opposite type, and the
consistency invariant is preserved; hence fully successful runs alternate
strictly within a day. -/
theorem determineAttendanceType_alternates
    (s : AttendanceState) (e : AttendanceRecord) (now todayStart tomorrowStart : ℤ)
    (hcons : MarkerConsistent s)
    (hlast : s.records.getLast? = some e)
    (htoday : todayStart ≤ e.timestamp ∧ e.timestamp < tomorrowStart) :
    determineAttendanceType s.marker s.records.getLast? todayStart tomorrowStart
      = (if e.type = AttType.ENTRY then AttType.EXIT else AttType.ENTRY)
    ∧ (processAttendance s now todayStart tomorrowStart true true).1.records
      = s.records
        ++ [⟨if e.type = AttType.ENTRY then AttType.EXIT else AttType.ENTRY, now⟩]
    ∧ MarkerConsistent (processAttendance s now todayStart tomorrowStart true true).1 := by
  have hdet : determineAttendanceType s.marker s.records.getLast? todayStart tomorrowStart
      = (if e.type = AttType.ENTRY then AttType.EXIT else AttType.ENTRY) := by
    cases hm : s.marker with
    | none =>
      simp only [determineAttendanceType, hlast, if_pos htoday]
    | some m =>
      obtain ⟨e2, hlast2, hty⟩ := hcons m hm
      rw [hlast] at hlast2
      cases hlast2
      simp only [determineAttendanceType, hty]
  refine ⟨hdet, ?_, ?_⟩
  · simp only [processAttendance, hdet, if_pos]
  · simp only [processAttendance, hdet, if_pos]
    intro m hm
    cases hm
    exact ⟨_, List.getLast?_concat _, rfl⟩

/-- C2 (witness for the amended theorem): a concrete consistent state with
one ENTRY recorded today; the next determined type is EXIT and the
check-in appends exactly that EXIT. -/
theorem determineAttendanceType_alternates_witness :
    MarkerConsistent ⟨[⟨AttType.ENTRY, 10⟩], some ⟨AttType.ENTRY, 10⟩⟩
    ∧ (⟨[⟨AttType.ENTRY, 10⟩], some ⟨AttType.ENTRY, 10⟩⟩
        : AttendanceState).records.getLast? = some ⟨AttType.ENTRY, 10⟩
    ∧ ((0 : ℤ) ≤ 10 ∧ (10 : ℤ) < 100)
    ∧ (determineAttendanceType
        (⟨[⟨AttType.ENTRY, 10⟩], some ⟨AttType.ENTRY, 10⟩⟩
          : AttendanceState).marker
        (⟨[⟨AttType.ENTRY, 10⟩], some ⟨AttType.ENTRY, 10⟩⟩
          : AttendanceState).records.getLast? 0 100
        = (if (⟨AttType.ENTRY, 10⟩ : AttendanceRecord).type = AttType.ENTRY
            then AttType.EXIT else AttType.ENTRY)
      ∧ (processAttendance
          ⟨[⟨AttType.ENTRY, 10⟩], some ⟨AttType.ENTRY, 10⟩⟩ 20 0 100 true true).1.records
        = [⟨AttType.ENTRY, 10⟩]
          ++ [⟨if (⟨AttType.ENTRY, 10⟩ : AttendanceRecord).type = AttType.ENTRY
                then AttType.EXIT else AttType.ENTRY, 20⟩]
      ∧ MarkerConsistent (processAttendance
          ⟨[⟨AttType.ENTRY, 10⟩], some ⟨AttType.ENTRY, 10⟩⟩ 20 0 100 true true).1) := by
  have hcons : MarkerConsistent
      ⟨[⟨AttType.ENTRY, 10⟩], some ⟨AttType.ENTRY, 10⟩⟩ := by
    intro m hm
    cases hm
    exact ⟨⟨AttType.ENTRY, 10⟩, rfl, rfl⟩
  exact ⟨hcons, rfl, by decide,
    determineAttendanceType_alternates _ ⟨AttType.ENTRY, 10⟩ 20 0 100 hcons rfl (by decide)⟩

/-- C3 (counterexample): a recent-attendance marker written on a prior day
is consulted with no date check.  An accepted ENTRY at 23:55 of day 0
leaves the marker `{lastType: ENTRY}`; at 00:05 of day 1 the marker is
still well inside its 3600-second TTL, the person has no event in day 1's
window, yet `determineAttendanceType` returns EXIT, not ENTRY. -/
theorem determineAttendanceType_prior_day_marker_not_entry :
    (∀ e ∈ ((processAttendance ⟨[], none⟩ 86100000 0 86400000 true true).1).records,
      e.timestamp < 86400000 ∨ (172800000 : ℤ) ≤ e.timestamp)
    ∧ ((processAttendance ⟨[], none⟩ 86100000 0 86400000 true true).1).marker
      = some ⟨AttType.ENTRY, 86100000⟩
    ∧ ((86700000 : ℤ) - 86100000 < RECENT_ATTENDANCE_TTL_MS)
    ∧ (determineAttendanceType
        ((processAttendance ⟨[], none⟩ 86100000 0 86400000 true true).1).marker
        ((processAttendance ⟨[], none⟩ 86100000 0 86400000 true true).1).records.getLast?
        86400000 172800000 = AttType.EXIT)
    ∧ AttType.EXIT ≠ AttType.ENTRY := by
  decide

/-- C3 (amended): for a person whose recent-attendance marker is absent
(or already expired from the cache) and who has no event in today's date
window, `determineAttendanceType` returns ENTRY even if events from prior
days exist; a prior-day marker still present in the cache instead yields
the opposite of the marker's type. -/
theorem determineAttendanceType_entry_when_no_event_today
    (s : AttendanceState) (todayStart tomorrowStart : ℤ)
    (hm : s.marker = none)
    (hrec : ∀ e ∈ s.records, e.timestamp < todayStart ∨ tomorrowStart ≤ e.timestamp) :
    determineAttendanceType s.marker s.records.getLast? todayStart tomorrowStart
      = AttType.ENTRY := by
  rw [hm]
  cases hlast : s.records.getLast? with
  | none => rfl
  | some last =>
    have hmem := getLast?_is_mem hlast
    have hout := hrec last hmem
    simp only [determineAttendanceType]
    rw [if_neg]
    rcases hout with h | h
    · exact fun hc => absurd hc.1 (by omega)
    · exact fun hc => absurd hc.2 (by omega)

/-- C3 (witness for the amended theorem): a person with one prior-day
event, no marker, and no event today is determined as ENTRY. -/
theorem determineAttendanceType_entry_when_no_event_today_witness :
    ((⟨[⟨AttType.ENTRY, -5⟩], none⟩ : AttendanceState).marker = none)
    ∧ (∀ e ∈ (⟨[⟨AttType.ENTRY, -5⟩], none⟩ : AttendanceState).records,
        e.timestamp < 0 ∨ (100 : ℤ) ≤ e.timestamp)
    ∧ determineAttendanceType
        (⟨[⟨AttType.ENTRY, -5⟩], none⟩ : AttendanceState).marker
        (⟨[⟨AttType.ENTRY, -5⟩], none⟩ : AttendanceState).records.getLast? 0 100
      = AttType.ENTRY :=
  ⟨rfl, by decide,
    determineAttendanceType_entry_when_no_event_today _ 0 100 rfl (by decide)⟩

/-- Every outcome of `processAttendance` carries no "too soon" wait: the
wait field is produced only by the duplicate-suppression guard. -/
theorem processAttendance_waitSeconds_none
    (s : AttendanceState) (now todayStart tomorrowStart : ℤ) (saveOk cacheOk : Bool) :
    (processAttendance s now todayStart tomorrowStart saveOk cacheOk).2.waitSeconds
      = none := by
  cases saveOk <;> cases cacheOk <;> rfl

/-- For a nonnegative elapsed time inside the suppression window, the
advertised wait is between 1 and 300 seconds. -/
theorem suppressionWait_bounds (timeSinceLastEntry : ℤ)
    (h0 : 0 ≤ timeSinceLastEntry)
    (hlt : timeSinceLastEntry < MIN_TIME_BETWEEN_ENTRIES) :
    1 ≤ suppressionWait timeSinceLastEntry ∧ suppressionWait timeSinceLastEntry ≤ 300 := by
  unfold suppressionWait
  constructor
  · apply Int.ceil_pos.mpr
    apply div_pos _ (by norm_num)
    have hcast : (timeSinceLastEntry : ℚ) < (MIN_TIME_BETWEEN_ENTRIES : ℚ) := by
      exact_mod_cast hlt
    linarith
  · rw [Int.ceil_le, div_le_iff₀ (by norm_num : (0:ℚ) < 1000)]
    have hcast : (0 : ℚ) ≤ (timeSinceLastEntry : ℚ) := by exact_mod_cast h0
    have hmin : (MIN_TIME_BETWEEN_ENTRIES : ℚ) = 300000 := by
      norm_num [MIN_TIME_BETWEEN_ENTRIES]
    rw [hmin]
    push_cast
    linarith

/-- C4: duplicate suppression in `processAttendanceCheck`.  If a
recent-attendance marker exists and less than five minutes have elapsed
since its timestamp, the request fails with an advertised wait of at most
300 seconds (and at least one second), no event is created and the marker
is unchanged; if at least five minutes have elapsed, no "too soon" wait is
produced and the call proceeds exactly as the normal commit path. -/
theorem processAttendanceCheck_duplicate_suppression
    (s : AttendanceState) (m : RecentAttendance)
    (now todayStart tomorrowStart : ℤ) (saveOk cacheOk : Bool)
    (hm : s.marker = some m) :
    (0 ≤ now - m.timestamp →
      now - m.timestamp < MIN_TIME_BETWEEN_ENTRIES →
      (processAttendanceCheck s now todayStart tomorrowStart saveOk cacheOk).2.success
          = false
        ∧ (∃ w, (processAttendanceCheck s now todayStart tomorrowStart
              saveOk cacheOk).2.waitSeconds = some w ∧ 1 ≤ w ∧ w ≤ 300)
        ∧ (processAttendanceCheck s now todayStart tomorrowStart saveOk cacheOk).1 = s)
    ∧ (MIN_TIME_BETWEEN_ENTRIES ≤ now - m.timestamp →
      (processAttendanceCheck s now todayStart tomorrowStart saveOk cacheOk).2.waitSeconds
          = none
        ∧ processAttendanceCheck s now todayStart tomorrowStart saveOk cacheOk
          = processAttendance s now todayStart tomorrowStart saveOk cacheOk) := by
  constructor
  · intro h0 hlt
    have hrun : processAttendanceCheck s now todayStart tomorrowStart saveOk cacheOk
        = (s, ⟨false, some (suppressionWait (now - m.timestamp)), none⟩) := by
      simp only [processAttendanceCheck, hm, if_pos hlt]
    rw [hrun]
    exact ⟨rfl, ⟨_, rfl, (suppressionWait_bounds _ h0 hlt).1,
      (suppressionWait_bounds _ h0 hlt).2⟩, rfl⟩
  · intro hge
    have hrun : processAttendanceCheck s now todayStart tomorrowStart saveOk cacheOk
        = processAttendance s now todayStart tomorrowStart saveOk cacheOk := by
      simp only [processAttendanceCheck, hm, if_neg (not_lt.mpr hge)]
    rw [hrun]
    exact ⟨processAttendance_waitSeconds_none _ _ _ _ _ _, rfl⟩

/-- C4 (witness): with a marker written one minute ago, the check is
rejected with a wait of at most 300 seconds and the state is unchanged. -/
theorem processAttendanceCheck_duplicate_suppression_witness :
    ((⟨[⟨AttType.ENTRY, 0⟩], some ⟨AttType.ENTRY, 0⟩⟩
        : AttendanceState).marker = some ⟨AttType.ENTRY, 0⟩)
    ∧ ((0 : ℤ) ≤ 60000 - (⟨AttType.ENTRY, 0⟩ : RecentAttendance).timestamp)
    ∧ (60000 - (⟨AttType.ENTRY, 0⟩ : RecentAttendance).timestamp
        < MIN_TIME_BETWEEN_ENTRIES)
    ∧ ((processAttendanceCheck ⟨[⟨AttType.ENTRY, 0⟩], some ⟨AttType.ENTRY, 0⟩⟩
          60000 0 86400000 true true).2.success = false
      ∧ (∃ w, (processAttendanceCheck ⟨[⟨AttType.ENTRY, 0⟩], some ⟨AttType.ENTRY, 0⟩⟩
            60000 0 86400000 true true).2.waitSeconds = some w ∧ 1 ≤ w ∧ w ≤ 300)
      ∧ (processAttendanceCheck ⟨[⟨AttType.ENTRY, 0⟩], some ⟨AttType.ENTRY, 0⟩⟩
          60000 0 86400000 true true).1
        = ⟨[⟨AttType.ENTRY, 0⟩], some ⟨AttType.ENTRY, 0⟩⟩) :=
  ⟨rfl, by decide, by decide,
    (processAttendanceCheck_duplicate_suppression _ ⟨AttType.ENTRY, 0⟩
      60000 0 86400000 true true rfl).1 (by decide) (by decide)⟩

/-- Commit semantics of `processAttendance`: success implies the event was
durably appended and the marker written; a failed durable write leaves the
state untouched and reports failure; and the marker is only ever changed
in executions whose durable write succeeded and appended the event. -/
theorem processAttendance_commit_spec
    (s : AttendanceState) (now todayStart tomorrowStart : ℤ) (saveOk cacheOk : Bool) :
    ((processAttendance s now todayStart tomorrowStart saveOk cacheOk).2.success = true →
      saveOk = true ∧ ∃ ty,
        (processAttendance s now todayStart tomorrowStart saveOk cacheOk).1.records
          = s.records ++ [⟨ty, now⟩]
        ∧ (processAttendance s now todayStart tomorrowStart saveOk cacheOk).1.marker
          = some ⟨ty, now⟩
        ∧ (processAttendance s now todayStart tomorrowStart saveOk cacheOk).2.recordedType
          = some ty)
    ∧ (saveOk = false →
      (processAttendance s now todayStart tomorrowStart saveOk cacheOk).2.success = false
      ∧ (processAttendance s now todayStart tomorrowStart saveOk cacheOk).1 = s)
    ∧ ((processAttendance s now todayStart tomorrowStart saveOk cacheOk).1.marker
          ≠ s.marker →
      saveOk = true ∧ ∃ ty,
        (processAttendance s now todayStart tomorrowStart saveOk cacheOk).1.records
          = s.records ++ [⟨ty, now⟩]) := by
  cases saveOk with
  | false =>
    exact ⟨fun h => absurd h (by simp [processAttendance]),
      fun _ => ⟨rfl, rfl⟩, fun h => absurd rfl h⟩
  | true =>
    cases cacheOk with
    | false =>
      exact ⟨fun h => absurd h (by simp [processAttendance]),
        fun h => absurd h (by simp), fun h => absurd rfl h⟩
    | true =>
      exact ⟨fun _ => ⟨rfl, _, rfl, rfl, rfl⟩,
        fun h => absurd h (by simp), fun _ => ⟨rfl, _, rfl⟩⟩

/-- `processAttendanceCheck` either rejects as "too soon" with no state
change, or behaves exactly as the commit path `processAttendance`. -/
theorem processAttendanceCheck_cases
    (s : AttendanceState) (now todayStart tomorrowStart : ℤ) (saveOk cacheOk : Bool) :
    processAttendanceCheck s now todayStart tomorrowStart saveOk cacheOk
      = processAttendance s now todayStart tomorrowStart saveOk cacheOk
    ∨ ∃ w, processAttendanceCheck s now todayStart tomorrowStart saveOk cacheOk
      = (s, ⟨false, some w, none⟩) := by
  cases hm : s.marker with
  | none =>
    left
    simp only [processAttendanceCheck, hm]
  | some m =>
    by_cases hlt : now - m.timestamp < MIN_TIME_BETWEEN_ENTRIES
    · right
      refine ⟨suppressionWait (now - m.timestamp), ?_⟩
      simp only [processAttendanceCheck, hm, if_pos hlt]
    · left
      simp only [processAttendanceCheck, hm, if_neg hlt]

/-- C5: in both attendance services, the durable `AttendanceEvent` write
strictly precedes the recent-attendance marker write.  A reported success
implies the event was appended durably and only then the marker written; a
failed durable write reports failure with no event and no marker change;
and any marker change at all implies a successful durable append — so no
execution reports success with an unpersisted event. -/
theorem attendance_durable_write_precedes_cache_write
    (s : AttendanceState) (now todayStart tomorrowStart : ℤ) (saveOk cacheOk : Bool) :
    ((processAttendance s now todayStart tomorrowStart saveOk cacheOk).2.success = true →
      saveOk = true ∧ ∃ ty,
        (processAttendance s now todayStart tomorrowStart saveOk cacheOk).1.records
          = s.records ++ [⟨ty, now⟩]
        ∧ (processAttendance s now todayStart tomorrowStart saveOk cacheOk).1.marker
          = some ⟨ty, now⟩)
    ∧ (saveOk = false →
      (processAttendance s now todayStart tomorrowStart saveOk cacheOk).2.success = false
      ∧ (processAttendance s now todayStart tomorrowStart saveOk cacheOk).1 = s)
    ∧ ((processAttendance s now todayStart tomorrowStart saveOk cacheOk).1.marker
          ≠ s.marker →
      saveOk = true ∧ ∃ ty,
        (processAttendance s now todayStart tomorrowStart saveOk cacheOk).1.records
          = s.records ++ [⟨ty, now⟩])
    ∧ ((processAttendanceCheck s now todayStart tomorrowStart saveOk cacheOk).2.success
          = true →
      saveOk = true ∧ ∃ ty,
        (processAttendanceCheck s now todayStart tomorrowStart saveOk cacheOk).1.records
          = s.records ++ [⟨ty, now⟩]
        ∧ (processAttendanceCheck s now todayStart tomorrowStart saveOk cacheOk).1.marker
          = some ⟨ty, now⟩)
    ∧ (saveOk = false →
      (processAttendanceCheck s now todayStart tomorrowStart saveOk cacheOk).2.success
          = false
      ∧ (processAttendanceCheck s now todayStart tomorrowStart saveOk cacheOk).1 = s)
    ∧ ((processAttendanceCheck s now todayStart tomorrowStart saveOk cacheOk).1.marker
          ≠ s.marker →
      saveOk = true ∧ ∃ ty,
        (processAttendanceCheck s now todayStart tomorrowStart saveOk cacheOk).1.records
          = s.records ++ [⟨ty, now⟩]) := by
  obtain ⟨h1, h2, h3⟩ := processAttendance_commit_spec s now todayStart tomorrowStart
    saveOk cacheOk
  refine ⟨?_, h2, h3, ?_, ?_, ?_⟩
  · intro h
    obtain ⟨hs, ty, hr, hmk, _⟩ := h1 h
    exact ⟨hs, ty, hr, hmk⟩
  all_goals
    rcases processAttendanceCheck_cases s now todayStart tomorrowStart saveOk cacheOk
      with heq | ⟨w, heq⟩ <;> rw [heq]
  · intro h
    obtain ⟨hs, ty, hr, hmk, _⟩ := h1 h
    exact ⟨hs, ty, hr, hmk⟩
  · intro h
    exact absurd h (by simp)
  · exact h2
  · intro _
    exact ⟨rfl, rfl⟩
  · exact h3
  · intro h
    exact absurd rfl h

/-- C5 (witness): a failed durable write reports failure and changes
nothing; a successful one reports success with the event appended and the
marker written afterwards. -/
theorem attendance_durable_write_precedes_cache_write_witness :
    ((processAttendance ⟨[], none⟩ 7 0 100 false true).2.success = false
      ∧ (processAttendance ⟨[], none⟩ 7 0 100 false true).1 = ⟨[], none⟩)
    ∧ (∃ ty, (processAttendance ⟨[], none⟩ 7 0 100 true true).1.records
        = [] ++ [⟨ty, 7⟩]
        ∧ (processAttendance ⟨[], none⟩ 7 0 100 true true).1.marker = some ⟨ty, 7⟩) := by
  constructor
  · exact (attendance_durable_write_precedes_cache_write ⟨[], none⟩ 7 0 100
      false true).2.1 rfl
  · obtain ⟨_, ty, hr, hmk⟩ := (attendance_durable_write_precedes_cache_write
      ⟨[], none⟩ 7 0 100 true true).1 rfl
    exact ⟨ty, hr, hmk⟩

/-- Removing a cache key makes lookups of that key miss. -/
theorem getUserSession_remove_self (cache : List (ℕ × CachedSession)) (sessionId : ℕ) :
    getUserSession (removeUserSession cache sessionId) sessionId = none := by
  induction cache with
  | nil => rfl
  | cons kv rest ih =>
    obtain ⟨k, v⟩ := kv
    by_cases hk : k = sessionId
    · simp only [removeUserSession, if_pos hk, ih]
    · simp only [removeUserSession, if_neg hk, getUserSession, if_neg hk, ih]

/-- Setting a cache key makes lookups of that key hit the new value. -/
theorem getUserSession_set_self (cache : List (ℕ × CachedSession)) (sessionId : ℕ)
    (data : CachedSession) :
    getUserSession (setUserSession cache sessionId data) sessionId = some data := by
  simp [setUserSession, getUserSession]

/-- Setting one cache key leaves lookups of a different key unchanged. -/
theorem getUserSession_set_other (cache : List (ℕ × CachedSession))
    (sessionId otherId : ℕ) (data : CachedSession) (h : otherId ≠ sessionId) :
    getUserSession (setUserSession cache sessionId data) otherId
      = getUserSession (removeUserSession cache sessionId) otherId := by
  simp only [setUserSession, getUserSession]
  rw [if_neg (Ne.symm h)]

/-- If no row carries the sessionId, `findActiveSession` misses. -/
theorem findActiveSession_none_of_no_sid (rows : List SessionRow)
    (sessionId : ℕ) (now : ℤ)
    (h : ∀ r ∈ rows, r.sessionId ≠ sessionId) :
    findActiveSession rows sessionId now = none := by
  induction rows with
  | nil => rfl
  | cons r rest ih =>
    have hr := h r (List.mem_cons_self r rest)
    simp only [findActiveSession]
    rw [if_neg (fun hc => hr hc.1)]
    exact ih (fun b hb => h b (List.mem_cons_of_mem r hb))

/-- If every row carrying the sessionId is inactive, `findActiveSession`
misses. -/
theorem findActiveSession_none_of_inactive (rows : List SessionRow)
    (sessionId : ℕ) (now : ℤ)
    (h : ∀ r ∈ rows, r.sessionId = sessionId → r.isActive = false) :
    findActiveSession rows sessionId now = none := by
  induction rows with
  | nil => rfl
  | cons r rest ih =>
    simp only [findActiveSession]
    rw [if_neg]
    · exact ih (fun b hb => h b (List.mem_cons_of_mem r hb))
    · rintro ⟨hsid, hact, _⟩
      rw [h r (List.mem_cons_self r rest) hsid] at hact
      exact Bool.false_ne_true hact

/-- With unique sessionIds, `findActiveSession` returns the member row
that matches the query. -/
theorem findActiveSession_finds (rows : List SessionRow) (row : SessionRow)
    (sessionId : ℕ) (now : ℤ)
    (huniq : SessionIdsUnique rows) (hmem : row ∈ rows)
    (hsid : row.sessionId = sessionId) (hact : row.isActive = true)
    (hexp : now < row.expiresAt) :
    findActiveSession rows sessionId now = some row := by
  induction rows with
  | nil => exact absurd hmem (List.not_mem_nil row)
  | cons r rest ih =>
    simp only [SessionIdsUnique, List.pairwise_cons] at huniq
    rcases List.mem_cons.mp hmem with heq | hmem2
    · subst heq
      simp [findActiveSession, hsid, hact, hexp]
    · have hrne : r.sessionId ≠ sessionId := by
        rw [← hsid]
        exact huniq.1 row hmem2
      simp only [findActiveSession]
      rw [if_neg (fun hc => hrne hc.1)]
      exact ih huniq.2 hmem2

/-- `verifyJwt` either throws or returns exactly the token's payload. -/
theorem verifyJwt_cases (t : Token) (now : ℤ) :
    verifyJwt t now = none ∨ verifyJwt t now = some t.payload := by
  unfold verifyJwt
  split
  · right; rfl
  · left; rfl

/-- A token accepted by `validateToken` has a verifying, unexpired
signature, nonzero ids, and an existing active user. -/
theorem validateToken_accepted_facts (st : AuthState) (t : Token) (now : ℤ)
    (h : (validateToken st t now).1 = true) :
    verifyJwt t now = some t.payload
    ∧ t.payload.sessionId ≠ 0 ∧ t.payload.userId ≠ 0
    ∧ ∃ u, st.users t.payload.userId = some u ∧ u.isActive = true := by
  rcases verifyJwt_cases t now with hv | hv
  · simp [validateToken, hv] at h
  · simp only [validateToken, hv] at h
    refine ⟨hv, ?_⟩
    by_cases hz : t.payload.sessionId = 0 ∨ t.payload.userId = 0
    · rw [if_pos hz] at h; simp at h
    · rw [if_neg hz] at h
      push_neg at hz
      refine ⟨hz.1, hz.2, ?_⟩
      by_cases hch : cacheHitValid st t.payload = true
      · unfold cacheHitValid at hch
        cases hc : getUserSession st.cache t.payload.sessionId with
        | none => simp only [hc] at hch; simp at hch
        | some proj =>
          simp only [hc] at hch
          cases hu : st.users t.payload.userId with
          | none => simp only [hu] at hch; simp at hch
          | some u =>
            simp only [hu] at hch
            exact ⟨u, rfl, hch⟩
      · rw [if_neg hch] at h
        cases hfs : findActiveSession st.sessions t.payload.sessionId now with
        | none => simp only [hfs] at h; simp at h
        | some session =>
          simp only [hfs] at h
          by_cases hiv : session.isValid now = false
          · rw [if_pos hiv] at h; simp at h
          · rw [if_neg hiv] at h
            cases hu : st.users t.payload.userId with
            | none => simp only [hu] at h; simp at h
            | some u =>
              simp only [hu] at h
              by_cases hia : u.isActive = false
              · rw [if_pos hia] at h; simp at h
              · exact ⟨u, rfl, Bool.eq_true_of_not_eq_false hia⟩

/-- The state returned by `validateToken` is either unchanged or differs
only in a re-cached session projection for the token's sessionId. -/
theorem validateToken_snd (st : AuthState) (t : Token) (now : ℤ) :
    (validateToken st t now).2 = st
    ∨ (validateToken st t now).2
      = ⟨st.sessions,
          setUserSession st.cache t.payload.sessionId ⟨t.payload.userId⟩,
          st.users⟩ := by
  rcases verifyJwt_cases t now with hv | hv
  · left
    simp [validateToken, hv]
  · by_cases hz : t.payload.sessionId = 0 ∨ t.payload.userId = 0
    · left
      simp [validateToken, hv, hz]
    · by_cases hch : cacheHitValid st t.payload = true
      · left
        simp [validateToken, hv, hz, hch]
      · cases hfs : findActiveSession st.sessions t.payload.sessionId now with
        | none =>
          left
          simp [validateToken, hv, hz, hch, hfs]
        | some session =>
          by_cases hiv : session.isValid now = false
          · left
            simp [validateToken, hv, hz, hch, hfs, hiv]
          · cases hu : st.users t.payload.userId with
            | none =>
              left
              simp [validateToken, hv, hz, hch, hfs, hiv, hu]
            | some u =>
              by_cases hia : u.isActive = false
              · left
                simp [validateToken, hv, hz, hch, hfs, hiv, hu, hia]
              · right
                simp [validateToken, hv, hz, hch, hfs, hiv, hu, hia]

/-- `validateToken` never touches the durable sessions or the users. -/
theorem validateToken_preserves (st : AuthState) (t : Token) (now : ℤ) :
    (validateToken st t now).2.sessions = st.sessions
    ∧ (validateToken st t now).2.users = st.users := by
  rcases validateToken_snd st t now with h | h <;> rw [h]
  · exact ⟨rfl, rfl⟩
  · exact ⟨rfl, rfl⟩

/-- Removing one cache key leaves lookups of a different key unchanged. -/
theorem getUserSession_remove_other (cache : List (ℕ × CachedSession))
    (sessionId otherId : ℕ) (h : otherId ≠ sessionId) :
    getUserSession (removeUserSession cache sessionId) otherId
      = getUserSession cache otherId := by
  induction cache with
  | nil => rfl
  | cons kv rest ih =>
    obtain ⟨k, v⟩ := kv
    by_cases hk : k = sessionId
    · subst hk
      simp [removeUserSession, getUserSession, ih, Ne.symm h]
    · simp only [removeUserSession, if_neg hk, getUserSession, ih]

/-- After `refreshToken`'s `updateOne` renamed the (unique) row holding
the old sessionId, no active-session lookup for the old id succeeds. -/
theorem findActiveSession_updateOne_none (rows : List SessionRow)
    (oldSid newSid : ℕ) (newExp now : ℤ)
    (huniq : SessionIdsUnique rows) (hne : newSid ≠ oldSid) :
    findActiveSession (updateOneSession rows oldSid newSid newExp) oldSid now
      = none := by
  induction rows with
  | nil => rfl
  | cons r rest ih =>
    simp only [SessionIdsUnique, List.pairwise_cons] at huniq
    by_cases hr : r.sessionId = oldSid
    · simp only [updateOneSession, if_pos hr, findActiveSession]
      rw [if_neg (fun hc => hne hc.1)]
      apply findActiveSession_none_of_no_sid
      intro b hb
      exact fun hb2 => huniq.1 b hb (by rw [hr, hb2])
    · simp only [updateOneSession, if_neg hr, findActiveSession]
      rw [if_neg (fun hc => hr hc.1)]
      exact ih huniq.2

/-- With unique sessionIds, every row of `deactivateOne rows sessionId`
that carries the target sessionId is inactive. -/
theorem deactivateOne_spec (rows : List SessionRow) (sessionId : ℕ)
    (huniq : SessionIdsUnique rows) :
    ∀ r ∈ deactivateOne rows sessionId, r.sessionId = sessionId →
      r.isActive = false := by
  induction rows with
  | nil =>
    intro r hr
    simp [deactivateOne] at hr
  | cons x rest ih =>
    simp only [SessionIdsUnique, List.pairwise_cons] at huniq
    intro r hr hrsid
    by_cases hx : x.sessionId = sessionId ∧ x.isActive = true
    · simp only [deactivateOne, if_pos hx] at hr
      rcases List.mem_cons.mp hr with heq | hmem
      · rw [heq]
      · exact absurd (hx.1.trans hrsid.symm) (huniq.1 r hmem)
    · simp only [deactivateOne, if_neg hx] at hr
      rcases List.mem_cons.mp hr with heq | hmem
      · subst heq
        cases hra : r.isActive
        · rfl
        · exact absurd ⟨hrsid, hra⟩ hx
      · exact ih huniq.2 r hmem hrsid

/-- C10: a token whose referenced user is deactivated is rejected by
`validateToken`, whatever the cache and the durable session rows say: both
the cache-hit branch and the durable-fallback branch re-check the user's
active flag. -/
theorem validateToken_rejects_inactive_user
    (st : AuthState) (t : Token) (now : ℤ) (u : UserRec)
    (hu : st.users t.payload.userId = some u)
    (hinactive : u.isActive = false) :
    (validateToken st t now).1 = false := by
  rcases verifyJwt_cases t now with hv | hv
  · simp [validateToken, hv]
  · by_cases hz : t.payload.sessionId = 0 ∨ t.payload.userId = 0
    · simp [validateToken, hv, hz]
    · have hch : cacheHitValid st t.payload = false := by
        unfold cacheHitValid
        cases hc : getUserSession st.cache t.payload.sessionId <;>
          simp [hu, hinactive]
      cases hfs : findActiveSession st.sessions t.payload.sessionId now with
      | none => simp [validateToken, hv, hz, hch, hfs]
      | some session =>
        by_cases hiv : session.isValid now = false
        · simp [validateToken, hv, hz, hch, hfs, hiv]
        · simp [validateToken, hv, hz, hch, hfs, hiv, hu, hinactive]

/-- C10 (witness): a syntactically valid, unexpired token whose session
projection is cached and whose durable row is active is still rejected
because user 1 is deactivated. -/
theorem validateToken_rejects_inactive_user_witness :
    ((⟨[⟨1, 5, true, 1000⟩], [(5, ⟨1⟩)], usersOneInactive⟩
        : AuthState).users (⟨⟨1, 5, 1000⟩, true⟩ : Token).payload.userId
      = some ⟨false⟩)
    ∧ ((⟨false⟩ : UserRec).isActive = false)
    ∧ verifyJwt ⟨⟨1, 5, 1000⟩, true⟩ 10 = some (⟨⟨1, 5, 1000⟩, true⟩ : Token).payload
    ∧ getUserSession [(5, ⟨1⟩)] 5 = some ⟨1⟩
    ∧ findActiveSession [⟨1, 5, true, 1000⟩] 5 10 = some ⟨1, 5, true, 1000⟩
    ∧ (validateToken ⟨[⟨1, 5, true, 1000⟩], [(5, ⟨1⟩)], usersOneInactive⟩
        ⟨⟨1, 5, 1000⟩, true⟩ 10).1 = false :=
  ⟨by simp [usersOneInactive], rfl, by decide, by decide, by decide,
    validateToken_rejects_inactive_user _ _ 10 ⟨false⟩
      (by simp [usersOneInactive]) rfl⟩

/-- C6: `validateToken` respects the token's embedded expiry `exp`,
independently of the cache.  For a signature-valid token of an active user
whose unique durable row is active with `expiresAt` equal to the token
expiry (as issuance creates them), validation succeeds at any time
strictly before the expiry — with or without a cached projection — and is
rejected at or after the expiry regardless of all state. -/
theorem validateToken_respects_token_expiry
    (st : AuthState) (t : Token) (row : SessionRow) (now : ℤ) (u : UserRec)
    (hsig : t.sigOk = true)
    (hsid : t.payload.sessionId ≠ 0)
    (huid : t.payload.userId ≠ 0)
    (hu : st.users t.payload.userId = some u)
    (hact : u.isActive = true)
    (huniq : SessionIdsUnique st.sessions)
    (hmem : row ∈ st.sessions)
    (hrowsid : row.sessionId = t.payload.sessionId)
    (hrowact : row.isActive = true)
    (hrowexp : row.expiresAt = t.payload.exp) :
    (now < t.payload.exp → (validateToken st t now).1 = true)
    ∧ (t.payload.exp ≤ now → (validateToken st t now).1 = false) := by
  constructor
  · intro hlt
    have hv : verifyJwt t now = some t.payload := by
      unfold verifyJwt
      rw [if_pos ⟨hsig, hlt⟩]
    have hz : ¬(t.payload.sessionId = 0 ∨ t.payload.userId = 0) := by
      rintro (h | h)
      · exact hsid h
      · exact huid h
    by_cases hch : cacheHitValid st t.payload = true
    · simp [validateToken, hv, hz, hch]
    · have hfs : findActiveSession st.sessions t.payload.sessionId now = some row :=
        findActiveSession_finds st.sessions row _ now huniq hmem hrowsid hrowact
          (by rw [hrowexp]; exact hlt)
      have hiv : row.isValid now = true := by
        unfold SessionRow.isValid
        rw [hrowact, hrowexp]
        simp [hlt]
      simp [validateToken, hv, hz, hch, hfs, hiv, hu, hact]
  · intro hge
    have hv : verifyJwt t now = none := by
      unfold verifyJwt
      rw [if_neg]
      rintro ⟨_, hlt⟩
      omega
    simp [validateToken, hv]

/-- C6 (witness): a token with expiry 1000 for active user 1 with a
matching active row validates at time 10 with an empty cache, and is
rejected at time 1000. -/
theorem validateToken_respects_token_expiry_witness :
    ((⟨⟨1, 5, 1000⟩, true⟩ : Token).sigOk = true)
    ∧ ((⟨⟨1, 5, 1000⟩, true⟩ : Token).payload.sessionId ≠ 0)
    ∧ ((⟨[⟨1, 5, true, 1000⟩], [], usersOneActive⟩ : AuthState).users 1
        = some ⟨true⟩)
    ∧ SessionIdsUnique [⟨1, 5, true, 1000⟩]
    ∧ ((⟨1, 5, true, 1000⟩ : SessionRow) ∈ [(⟨1, 5, true, 1000⟩ : SessionRow)])
    ∧ (validateToken ⟨[⟨1, 5, true, 1000⟩], [], usersOneActive⟩
        ⟨⟨1, 5, 1000⟩, true⟩ 10).1 = true
    ∧ (validateToken ⟨[⟨1, 5, true, 1000⟩], [], usersOneActive⟩
        ⟨⟨1, 5, 1000⟩, true⟩ 1000).1 = false :=
  ⟨rfl, by decide, by simp [usersOneActive], by simp [SessionIdsUnique], by decide,
    (validateToken_respects_token_expiry _ _ ⟨1, 5, true, 1000⟩ 10 ⟨true⟩
      rfl (by decide) (by decide) (by simp [usersOneActive]) rfl
      (by simp [SessionIdsUnique]) (by decide) rfl rfl rfl).1 (by decide),
    (validateToken_respects_token_expiry _ _ ⟨1, 5, true, 1000⟩ 1000 ⟨true⟩
      rfl (by decide) (by decide) (by simp [usersOneActive]) rfl
      (by simp [SessionIdsUnique]) (by decide) rfl rfl rfl).2 (by decide)⟩

/-- C8: immediately after `logout(sessionId)`, the durable store refuses
the session: every stored row with that sessionId has `isActive = false`
and `findActiveSession` returns none — independent of any cached
projection (which logout also evicts). -/
theorem logout_deactivates_durable_session
    (st : AuthState) (sessionId : ℕ) (now : ℤ)
    (huniq : SessionIdsUnique st.sessions) :
    (∀ r ∈ (logout st sessionId).sessions, r.sessionId = sessionId →
      r.isActive = false)
    ∧ findActiveSession (logout st sessionId).sessions sessionId now = none
    ∧ getUserSession (logout st sessionId).cache sessionId = none := by
  have h1 : ∀ r ∈ deactivateOne st.sessions sessionId, r.sessionId = sessionId →
      r.isActive = false := deactivateOne_spec st.sessions sessionId huniq
  exact ⟨h1, findActiveSession_none_of_inactive _ _ _ h1,
    getUserSession_remove_self _ _⟩

/-- C8 (witness): revoking session 5, whose row is active and unexpired
and whose projection is cached, makes the durable lookup fail. -/
theorem logout_deactivates_durable_session_witness :
    SessionIdsUnique [⟨1, 5, true, 1000⟩]
    ∧ ((∀ r ∈ (logout ⟨[⟨1, 5, true, 1000⟩], [(5, ⟨1⟩)], usersOneActive⟩ 5).sessions,
          r.sessionId = 5 → r.isActive = false)
      ∧ findActiveSession
          (logout ⟨[⟨1, 5, true, 1000⟩], [(5, ⟨1⟩)], usersOneActive⟩ 5).sessions 5 10
        = none
      ∧ getUserSession
          (logout ⟨[⟨1, 5, true, 1000⟩], [(5, ⟨1⟩)], usersOneActive⟩ 5).cache 5
        = none) :=
  ⟨by simp [SessionIdsUnique],
    logout_deactivates_durable_session
      ⟨[⟨1, 5, true, 1000⟩], [(5, ⟨1⟩)], usersOneActive⟩ 5 10
      (by simp [SessionIdsUnique])⟩

/-- C7: after a successful `refreshToken(oldToken)`, the old token no
longer validates — its cache projection was removed and the unique durable
row now carries the new sessionId — while the returned token validates.
`newSessionId` is the freshly generated id (distinct from the old id and
nonzero, as a 32-byte random hex id is) and `expiryMs` the positive
configured token lifetime. -/
theorem refreshToken_invalidates_old_token
    (st st2 : AuthState) (oldToken newToken : Token) (now : ℤ)
    (newSessionId : ℕ) (expiryMs : ℤ)
    (huniq : SessionIdsUnique st.sessions)
    (hfresh : newSessionId ≠ oldToken.payload.sessionId)
    (hnz : newSessionId ≠ 0)
    (hexp : 0 < expiryMs)
    (hrun : refreshToken st oldToken now newSessionId expiryMs
      = (some newToken, st2)) :
    (validateToken st2 oldToken now).1 = false
    ∧ (validateToken st2 newToken now).1 = true := by
  rcases hval : validateToken st oldToken now with ⟨b, st1⟩
  cases b with
  | false =>
    simp only [refreshToken, hval] at hrun
    injection hrun with h1 h2
    exact absurd h1 (by simp)
  | true =>
    simp only [refreshToken, hval] at hrun
    injection hrun with htok hst2
    injection htok with htok
    have hacc := validateToken_accepted_facts st oldToken now (by rw [hval])
    obtain ⟨hv, hsid0, huid0, u, hu, hact⟩ := hacc
    have hpres := validateToken_preserves st oldToken now
    rw [hval] at hpres
    have hs1sessions : st1.sessions = st.sessions := hpres.1
    have hs1users : st1.users = st.users := hpres.2
    subst hst2
    subst htok
    constructor
    · -- the old token now fails validation
      have hz : ¬(oldToken.payload.sessionId = 0 ∨ oldToken.payload.userId = 0) := by
        rintro (h | h)
        · exact hsid0 h
        · exact huid0 h
      have hcache : getUserSession
          (setUserSession (removeUserSession st1.cache oldToken.payload.sessionId)
            newSessionId ⟨oldToken.payload.userId⟩)
          oldToken.payload.sessionId = none := by
        rw [getUserSession_set_other _ _ _ _ (Ne.symm hfresh),
          getUserSession_remove_other _ _ _ (Ne.symm hfresh),
          getUserSession_remove_self]
      have hch : cacheHitValid
          ⟨updateOneSession st1.sessions oldToken.payload.sessionId newSessionId
              (now + expiryMs),
            setUserSession (removeUserSession st1.cache oldToken.payload.sessionId)
              newSessionId ⟨oldToken.payload.userId⟩,
            st1.users⟩ oldToken.payload = false := by
        unfold cacheHitValid
        simp only [hcache]
      have hfs : findActiveSession
          (updateOneSession st1.sessions oldToken.payload.sessionId newSessionId
            (now + expiryMs))
          oldToken.payload.sessionId now = none := by
        rw [hs1sessions]
        exact findActiveSession_updateOne_none st.sessions _ _ _ now huniq hfresh
      simp [validateToken, hv, hz, hch, hfs]
    · -- the new token validates via its fresh cache projection
      have hvnew : verifyJwt
          ⟨⟨oldToken.payload.userId, newSessionId, now + expiryMs⟩, true⟩ now
          = some ⟨oldToken.payload.userId, newSessionId, now + expiryMs⟩ := by
        unfold verifyJwt
        rw [if_pos ⟨rfl, show now < now + expiryMs by omega⟩]
      have hz : ¬((⟨oldToken.payload.userId, newSessionId, now + expiryMs⟩
          : TokenPayload).sessionId = 0
          ∨ (⟨oldToken.payload.userId, newSessionId, now + expiryMs⟩
          : TokenPayload).userId = 0) := by
        rintro (h | h)
        · exact hnz h
        · exact huid0 h
      have hch : cacheHitValid
          ⟨updateOneSession st1.sessions oldToken.payload.sessionId newSessionId
              (now + expiryMs),
            setUserSession (removeUserSession st1.cache oldToken.payload.sessionId)
              newSessionId ⟨oldToken.payload.userId⟩,
            st1.users⟩ ⟨oldToken.payload.userId, newSessionId, now + expiryMs⟩
          = true := by
        unfold cacheHitValid
        simp only [getUserSession_set_self, hs1users, hu]
        exact hact
      simp [validateToken, hvnew, hz, hch]

/-- C7 (witness): a concrete refresh run; afterwards the old token is
rejected and the new token accepted. -/
theorem refreshToken_invalidates_old_token_witness :
    SessionIdsUnique [⟨1, 5, true, 1000⟩]
    ∧ ((6 : ℕ) ≠ 5) ∧ ((6 : ℕ) ≠ 0) ∧ ((0 : ℤ) < 900000)
    ∧ refreshToken ⟨[⟨1, 5, true, 1000⟩], [], usersOneActive⟩
        ⟨⟨1, 5, 1000⟩, true⟩ 10 6 900000
      = (some ⟨⟨1, 6, 900010⟩, true⟩,
          ⟨[⟨1, 6, true, 900010⟩], [(6, ⟨1⟩)], usersOneActive⟩)
    ∧ (validateToken ⟨[⟨1, 6, true, 900010⟩], [(6, ⟨1⟩)], usersOneActive⟩
        ⟨⟨1, 5, 1000⟩, true⟩ 10).1 = false
    ∧ (validateToken ⟨[⟨1, 6, true, 900010⟩], [(6, ⟨1⟩)], usersOneActive⟩
        ⟨⟨1, 6, 900010⟩, true⟩ 10).1 = true := by
  have hrun : refreshToken ⟨[⟨1, 5, true, 1000⟩], [], usersOneActive⟩
      ⟨⟨1, 5, 1000⟩, true⟩ 10 6 900000
      = (some ⟨⟨1, 6, 900010⟩, true⟩,
          ⟨[⟨1, 6, true, 900010⟩], [(6, ⟨1⟩)], usersOneActive⟩) := rfl
  have hmain := refreshToken_invalidates_old_token
    ⟨[⟨1, 5, true, 1000⟩], [], usersOneActive⟩
    ⟨[⟨1, 6, true, 900010⟩], [(6, ⟨1⟩)], usersOneActive⟩
    ⟨⟨1, 5, 1000⟩, true⟩ ⟨⟨1, 6, 900010⟩, true⟩ 10 6 900000
    (by simp [SessionIdsUnique]) (by decide) (by decide) (by decide) hrun
  exact ⟨by simp [SessionIdsUnique], by decide, by decide, by decide, hrun,
    hmain.1, hmain.2⟩

/-- Equal-length descriptors always produce a distance (no throw). -/
theorem calculateEuclideanDistance_isSome (desc1 desc2 : List ℝ)
    (h : desc1.length = desc2.length) :
    calculateEuclideanDistance desc1 desc2
      = some (Real.sqrt (((desc1.zip desc2).map
          (fun p => (p.1 - p.2) * (p.1 - p.2))).sum)) := by
  unfold calculateEuclideanDistance
  rw [if_pos h]

/-- A run of gallery entries none of which is an active match below the
threshold leaves the loop's accumulators untouched. -/
theorem findMatchLoop_skip (faceDescriptor : List ℝ) (db : ℕ → Option UserRec)
    (l1 l2 : List (ℕ × List ℝ)) (bestMatch : Option FaceMatch)
    (minDistance : Option ℝ)
    (hlen : ∀ p ∈ l1, faceDescriptor.length = (p.2 : List ℝ).length)
    (hskip : ∀ p ∈ l1, ∀ u, db p.1 = some u → u.isActive = true →
      ∀ d, calculateEuclideanDistance faceDescriptor p.2 = some d →
        FACE_DISTANCE_THRESHOLD ≤ d) :
    findMatchLoop faceDescriptor db (l1 ++ l2) bestMatch minDistance
      = findMatchLoop faceDescriptor db l2 bestMatch minDistance := by
  induction l1 generalizing bestMatch minDistance with
  | nil => rfl
  | cons p l1x ih =>
    obtain ⟨userId, descriptor⟩ := p
    have hd := calculateEuclideanDistance_isSome faceDescriptor descriptor
      (hlen _ (List.mem_cons_self _ _))
    have hlenx : ∀ q ∈ l1x, faceDescriptor.length = (q.2 : List ℝ).length :=
      fun q hq => hlen q (List.mem_cons_of_mem _ hq)
    have hskipx : ∀ q ∈ l1x, ∀ u, db q.1 = some u → u.isActive = true →
        ∀ d, calculateEuclideanDistance faceDescriptor q.2 = some d →
          FACE_DISTANCE_THRESHOLD ≤ d :=
      fun q hq => hskip q (List.mem_cons_of_mem _ hq)
    by_cases hcond : Real.sqrt (((faceDescriptor.zip descriptor).map
        (fun q => (q.1 - q.2) * (q.1 - q.2))).sum) < FACE_DISTANCE_THRESHOLD
        ∧ ltMinDistance (Real.sqrt (((faceDescriptor.zip descriptor).map
          (fun q => (q.1 - q.2) * (q.1 - q.2))).sum)) minDistance
    · cases hdb : db userId with
      | none =>
        simp only [List.cons_append, findMatchLoop, hd, if_pos hcond, hdb]
        exact ih _ _ hlenx hskipx
      | some user =>
        cases hua : user.isActive with
        | true =>
          have hge := hskip _ (List.mem_cons_self _ _) user hdb hua _ hd
          exact absurd hcond.1 (not_lt.mpr hge)
        | false =>
          simp only [List.cons_append, findMatchLoop, hd, if_pos hcond, hdb, hua]
          rw [if_neg Bool.false_ne_true]
          exact ih _ _ hlenx hskipx
    · simp only [List.cons_append, findMatchLoop, hd, if_neg hcond]
      exact ih _ _ hlenx hskipx

/-- C1: nearest-neighbour matching.  (a) If exactly one gallery entry
belongs to an active user and lies strictly below the distance threshold
(every other active entry being at or above it), `findMatchingUser`
returns that user with the computed distance and confidence `1 -
distance`.  (b) If every active entry is at or above the threshold, it
returns "no match". -/
theorem findMatchingUser_spec (faceDescriptor : List ℝ)
    (gallery : List (ℕ × List ℝ)) (db : ℕ → Option UserRec)
    (hlen : ∀ p ∈ gallery, faceDescriptor.length = (p.2 : List ℝ).length)
    (hnd : (gallery.map Prod.fst).Nodup) :
    (∀ uid0 d0 dist0 u0,
      (uid0, d0) ∈ gallery →
      db uid0 = some u0 → u0.isActive = true →
      calculateEuclideanDistance faceDescriptor d0 = some dist0 →
      dist0 < FACE_DISTANCE_THRESHOLD →
      (∀ p ∈ gallery, p.1 ≠ uid0 → ∀ u, db p.1 = some u → u.isActive = true →
        ∀ d, calculateEuclideanDistance faceDescriptor p.2 = some d →
          FACE_DISTANCE_THRESHOLD ≤ d) →
      findMatchingUser faceDescriptor gallery db
        = some (some ⟨uid0, dist0, 1 - dist0⟩))
    ∧ ((∀ p ∈ gallery, ∀ u, db p.1 = some u → u.isActive = true →
        ∀ d, calculateEuclideanDistance faceDescriptor p.2 = some d →
          FACE_DISTANCE_THRESHOLD ≤ d) →
      findMatchingUser faceDescriptor gallery db = some none) := by
  constructor
  · intro uid0 d0 dist0 u0 hmem hdb hact hdist hlt hothers
    obtain ⟨s, t, hsplit⟩ := List.append_of_mem hmem
    subst hsplit
    have hndx := hnd
    rw [List.map_append, List.nodup_append] at hndx
    obtain ⟨hnds, hndct, hdisj⟩ := hndx
    have hsne : ∀ p ∈ s, p.1 ≠ uid0 := by
      intro p hp hpe
      exact hdisj (List.mem_map_of_mem Prod.fst hp)
        (by rw [List.map_cons]; rw [hpe]; exact List.mem_cons_self _ _)
    have htne : ∀ p ∈ t, p.1 ≠ uid0 := by
      intro p hp hpe
      rw [List.map_cons, List.nodup_cons] at hndct
      have hmm : p.1 ∈ List.map Prod.fst t := List.mem_map_of_mem Prod.fst hp
      exact hndct.1 (hpe ▸ hmm)
    unfold findMatchingUser
    rw [findMatchLoop_skip faceDescriptor db s _ none none
      (fun q hq => hlen q (List.mem_append_left _ hq))
      (fun q hq => hothers q (List.mem_append_left _ hq) (hsne q hq))]
    simp only [findMatchLoop, hdist]
    rw [if_pos ⟨hlt, trivial⟩]
    simp only [hdb]
    rw [if_pos hact]
    have hrest := findMatchLoop_skip faceDescriptor db t []
      (some ⟨uid0, dist0, 1 - dist0⟩) (some dist0)
      (fun q hq => hlen q (List.mem_append_right _ (List.mem_cons_of_mem _ hq)))
      (fun q hq => hothers q (List.mem_append_right _ (List.mem_cons_of_mem _ hq))
        (htne q hq))
    rw [List.append_nil] at hrest
    rw [hrest]
    rfl
  · intro hall
    unfold findMatchingUser
    have hrest := findMatchLoop_skip faceDescriptor db gallery [] none none hlen hall
    rw [List.append_nil] at hrest
    rw [hrest]
    rfl

/-- The matching loop only ever installs matches of existing active users
as the best match. -/
theorem findMatchLoop_best_active (faceDescriptor : List ℝ)
    (db : ℕ → Option UserRec) (l : List (ℕ × List ℝ))
    (bestMatch : Option FaceMatch) (minDistance : Option ℝ) (m : FaceMatch)
    (hbest : ∀ m2, bestMatch = some m2 →
      ∃ u, db m2.userId = some u ∧ u.isActive = true)
    (h : findMatchLoop faceDescriptor db l bestMatch minDistance
      = some (some m)) :
    ∃ u, db m.userId = some u ∧ u.isActive = true := by
  induction l generalizing bestMatch minDistance with
  | nil =>
    simp only [findMatchLoop] at h
    injection h with h
    exact hbest m h
  | cons p rest ih =>
    obtain ⟨userId, descriptor⟩ := p
    cases hd : calculateEuclideanDistance faceDescriptor descriptor with
    | none =>
      simp only [findMatchLoop, hd] at h
      exact absurd h (by simp)
    | some distance =>
      by_cases hcond : distance < FACE_DISTANCE_THRESHOLD
          ∧ ltMinDistance distance minDistance
      · cases hdb : db userId with
        | none =>
          simp only [findMatchLoop, hd, if_pos hcond, hdb] at h
          exact ih _ _ hbest h
        | some user =>
          cases hua : user.isActive with
          | true =>
            simp only [findMatchLoop, hd, if_pos hcond, hdb, hua, if_pos] at h
            refine ih _ _ ?_ h
            intro m2 hm2
            injection hm2 with hm2
            rw [← hm2]
            exact ⟨user, hdb, hua⟩
          | false =>
            simp only [findMatchLoop, hd, if_pos hcond, hdb, hua] at h
            rw [if_neg Bool.false_ne_true] at h
            exact ih _ _ hbest h
      · simp only [findMatchLoop, hd, if_neg hcond] at h
        exact ih _ _ hbest h

/-- C9: whatever descriptors are cached, `findMatchingUser` never returns
a match whose user is missing or deactivated: the user's active flag is
re-checked inside the loop, so a deactivated person's still-cached
descriptor can win nothing. -/
theorem findMatchingUser_never_returns_inactive (faceDescriptor : List ℝ)
    (cachedDescriptors : List (ℕ × List ℝ)) (db : ℕ → Option UserRec)
    (m : FaceMatch)
    (h : findMatchingUser faceDescriptor cachedDescriptors db
      = some (some m)) :
    ∃ u, db m.userId = some u ∧ u.isActive = true :=
  findMatchLoop_best_active faceDescriptor db cachedDescriptors none none m
    (fun m2 hm2 => by cases hm2) h

/-- The distance between a 128-dimensional zero descriptor and itself is
zero (a concrete evaluation of `calculateEuclideanDistance`). -/
theorem calculateEuclideanDistance_zeros :
    calculateEuclideanDistance (List.replicate 128 (0:ℝ))
      (List.replicate 128 (0:ℝ)) = some 0 := by
  rw [calculateEuclideanDistance_isSome _ _ (by simp)]
  have h1 : (List.replicate 128 (0:ℝ)).zip (List.replicate 128 (0:ℝ))
      = List.replicate 128 ((0:ℝ), (0:ℝ)) := by
    rw [List.zip_replicate]
    norm_num
  rw [h1]
  simp

/-- A concrete evaluation of `findMatchingUser`: active user 1 with the
zero descriptor matches the zero input at distance 0. -/
theorem findMatchingUser_eval_zeros :
    findMatchingUser (List.replicate 128 (0:ℝ))
      [(1, List.replicate 128 (0:ℝ))] usersOneActive
      = some (some ⟨1, 0, 1 - 0⟩) := by
  have hpos : (0:ℝ) < FACE_DISTANCE_THRESHOLD := by
    norm_num [FACE_DISTANCE_THRESHOLD]
  unfold findMatchingUser
  simp only [findMatchLoop, calculateEuclideanDistance_zeros]
  rw [if_pos ⟨hpos, by exact trivial⟩]
  have hdb : usersOneActive 1 = some ⟨true⟩ := rfl
  simp only [hdb]
  simp

/-- C1 (witness): a singleton gallery whose only entry is an active user
at distance 0 from the input; the match is that user with distance 0 and
confidence `1 - 0`. -/
theorem findMatchingUser_spec_witness :
    (∀ p ∈ [((1:ℕ), List.replicate 128 (0:ℝ))],
      (List.replicate 128 (0:ℝ)).length = (p.2 : List ℝ).length)
    ∧ ([((1:ℕ), List.replicate 128 (0:ℝ))].map Prod.fst).Nodup
    ∧ calculateEuclideanDistance (List.replicate 128 (0:ℝ))
        (List.replicate 128 (0:ℝ)) = some 0
    ∧ ((0:ℝ) < FACE_DISTANCE_THRESHOLD)
    ∧ usersOneActive 1 = some ⟨true⟩
    ∧ findMatchingUser (List.replicate 128 (0:ℝ))
        [(1, List.replicate 128 (0:ℝ))] usersOneActive
      = some (some ⟨1, 0, 1 - 0⟩) := by
  have hlen : ∀ p ∈ [((1:ℕ), List.replicate 128 (0:ℝ))],
      (List.replicate 128 (0:ℝ)).length = (p.2 : List ℝ).length := by
    intro p hp
    rw [List.mem_singleton.mp hp]
  have hnd : ([((1:ℕ), List.replicate 128 (0:ℝ))].map Prod.fst).Nodup := by
    simp
  have hlt : (0:ℝ) < FACE_DISTANCE_THRESHOLD := by
    norm_num [FACE_DISTANCE_THRESHOLD]
  refine ⟨hlen, hnd, calculateEuclideanDistance_zeros, hlt, rfl, ?_⟩
  refine (findMatchingUser_spec _ _ usersOneActive hlen hnd).1
    1 (List.replicate 128 (0:ℝ)) 0 ⟨true⟩ (List.mem_singleton.mpr rfl) rfl rfl
    calculateEuclideanDistance_zeros hlt ?_
  intro p hp hne
  rw [List.mem_singleton.mp hp] at hne
  exact absurd rfl hne

/-- C9 (witness): a run that returns a match; the matched user exists and
is active. -/
theorem findMatchingUser_never_returns_inactive_witness :
    findMatchingUser (List.replicate 128 (0:ℝ))
        [(1, List.replicate 128 (0:ℝ))] usersOneActive
      = some (some ⟨1, 0, 1 - 0⟩)
    ∧ ∃ u, usersOneActive (⟨1, 0, 1 - 0⟩ : FaceMatch).userId = some u
        ∧ u.isActive = true :=
  ⟨findMatchingUser_eval_zeros,
    findMatchingUser_never_returns_inactive _ _ _ _ findMatchingUser_eval_zeros⟩

end AttendanceSystem
